import Mathlib

/-!
Shallow embedding of the adaptive-AI prediction subsystem:
`pattern_learner.py` (PatternLearner), `intent_predictor.py` (IntentPredictor)
and the prediction cache of `adaptive_engine.py` (AdaptiveEngine.predict_intent).

Python dicts are modelled as insertion-ordered association lists; `defaultdict`
reads that materialise a default entry are modelled explicitly; confidences are
rationals; `Counter.most_common(1)` is modelled as "first-inserted key with
maximal count" (CPython's `nlargest(1)` is a stable `max` over items in
insertion order).
-/

namespace AdaptiveAI

attribute [local semireducible] Rat.add Rat.mul Rat.inv Rat.sub Rat.ofScientific

set_option maxRecDepth 4000

/-- Lookup in an insertion-ordered association list (Python `k in d` / `d[k]`). -/
def alistLookup {β : Type} (l : List (String × β)) (k : String) : Option β :=
  (l.find? (fun p => p.1 == k)).map Prod.snd

/-- Python dict assignment `d[k] = v`: replace in place if present, else append. -/
def alistSet {β : Type} (l : List (String × β)) (k : String) (v : β) : List (String × β) :=
  if (l.find? (fun p => p.1 == k)).isSome then
    l.map (fun p => if p.1 == k then (k, v) else p)
  else l ++ [(k, v)]

/-- Keys of a list in order of first occurrence (Python dict/Counter key order). -/
def firstKeys {α : Type} [BEq α] (l : List α) : List α :=
  l.foldl (fun acc a => if acc.contains a then acc else acc ++ [a]) []

/-- `Counter(l).most_common(1)[0][0]` for nonempty `l`, `none` for `[]`:
the first-inserted element among those with maximal multiplicity. -/
def mostCommon {α : Type} [BEq α] (l : List α) : Option α :=
  (firstKeys l).foldl
    (fun best k =>
      match best with
      | none => some k
      | some b => if l.count k > l.count b then some k else best)
    none

/-- Python `str.split()` whitespace characters. -/
def pyIsSpace (c : Char) : Bool :=
  c == ' ' || c == '\t' || c == '\n' || c == '\r' || c == '\x0b' || c == '\x0c'

/-- Helper for `splitWords`: accumulates the current (reversed) word. -/
def splitWordsAux : List Char → List Char → List (List Char)
  | [], [] => []
  | [], cur => [cur.reverse]
  | c :: rest, cur =>
    if pyIsSpace c then
      match cur with
      | [] => splitWordsAux rest []
      | _ => cur.reverse :: splitWordsAux rest []
    else splitWordsAux rest (c :: cur)

/-- Python `s.split()`: split on runs of whitespace, dropping empty tokens. -/
def splitWords (s : List Char) : List (List Char) := splitWordsAux s []

/-- Python `s.lower()` as a character list (ASCII suffices for this repo). -/
def lowerChars (s : String) : List Char := s.toList.map Char.toLower

/- ===== PatternLearner (pattern_learner.py) ===== -/

/-- State of `PatternLearner`: `sequences`, and the three `defaultdict`s
(`action_contexts`, `action_success`, `time_patterns`) as insertion-ordered
association lists; `action_success` values are (success, failure) counts. -/
structure LearnerState where
  sequences : List (List String)
  action_contexts : List (String × List String)
  action_success : List (String × Nat × Nat)
  time_patterns : List (String × List Nat)
deriving DecidableEq

/-- `PatternLearner.__init__`: all collections empty. -/
def emptyLearner : LearnerState := ⟨[], [], [], []⟩

/-- `defaultdict(list)` / `defaultdict(...)[k].append(v)`-style update used by
`observe` for `action_contexts`. -/
def appendContext (l : List (String × List String)) (k : String) (v : String) :
    List (String × List String) :=
  if (l.find? (fun p => p.1 == k)).isSome then
    l.map (fun p => if p.1 == k then (p.1, p.2 ++ [v]) else p)
  else l ++ [(k, [v])]

/-- `observe`'s update of the success/failure counters. -/
def bumpSuccess (l : List (String × Nat × Nat)) (k : String) (success : Bool) :
    List (String × Nat × Nat) :=
  if (l.find? (fun p => p.1 == k)).isSome then
    l.map (fun p =>
      if p.1 == k then
        (p.1, if success then (p.2.1 + 1, p.2.2) else (p.2.1, p.2.2 + 1))
      else p)
  else l ++ [(k, if success then (1, 0) else (0, 1))]

/-- `observe`'s update of the hour samples. -/
def appendHour (l : List (String × List Nat)) (k : String) (v : Nat) :
    List (String × List Nat) :=
  if (l.find? (fun p => p.1 == k)).isSome then
    l.map (fun p => if p.1 == k then (p.1, p.2 ++ [v]) else p)
  else l ++ [(k, [v])]

/-- `PatternLearner.observe(action, context, success, hour)`. -/
def observe (s : LearnerState) (action context : String) (success : Bool) (hour : Nat) :
    LearnerState :=
  { s with
    action_contexts := appendContext s.action_contexts action context
    action_success := bumpSuccess s.action_success action success
    time_patterns := appendHour s.time_patterns action hour }

/-- `PatternLearner.observe_sequence(actions)`: append iff `len(actions) >= 2`. -/
def observe_sequence (s : LearnerState) (actions : List String) : LearnerState :=
  if 2 ≤ actions.length then { s with sequences := s.sequences ++ [actions] } else s

/-- The inner loop of `predict_from_sequences`: for each adjacent pair `(a, b)`
of `seq` (i.e. `enumerate(seq[:-1])`), collect `b` whenever `a == last`. -/
def followers (last : String) : List String → List String
  | [] => []
  | [_] => []
  | a :: b :: rest => (if a == last then [b] else []) ++ followers last (b :: rest)

/-- `PatternLearner.predict_from_sequences(recent_actions)`: the guard
`if not last_action: return None` is Python truthiness, so both an empty
recent-actions list and an empty-string last action short-circuit to `None`. -/
def predict_from_sequences (s : LearnerState) (recent_actions : List String) :
    Option String :=
  match recent_actions.getLast? with
  | none => none
  | some last =>
    if last == "" then none
    else mostCommon ((s.sequences.map (followers last)).flatten)

/-- `PatternLearner.contexts_similar(ctx1, ctx2, threshold)`: Jaccard word
overlap of whitespace-tokenized inputs; `false` when either word set is empty. -/
def contexts_similar (ctx1 ctx2 : List Char) (threshold : ℚ) : Bool :=
  let words1 := firstKeys (splitWords ctx1)
  let words2 := firstKeys (splitWords ctx2)
  if words1.isEmpty || words2.isEmpty then false
  else
    let overlap := (words1.filter (fun w => words2.contains w)).length
    let total := (words1 ++ words2.filter (fun w => !(words1.contains w))).length
    let similarity : ℚ := if total > 0 then (overlap : ℚ) / (total : ℚ) else 0
    decide (threshold ≤ similarity)

/-- `PatternLearner.predict_from_context(context)`: every stored context sample
similar to the (lowercased) query votes for its action; most-voted wins. -/
def predict_from_context (s : LearnerState) (context : String) : Option String :=
  let context_lower := lowerChars context
  let similar_actions :=
    (s.action_contexts.map (fun p =>
      (p.2.filter (fun ctx => contexts_similar context_lower (lowerChars ctx) (3/10))).map
        (fun _ => p.1))).flatten
  mostCommon similar_actions

/-- Result record of `predict_next_action` (the Python result dictionary). -/
structure Prediction where
  action : Option String
  confidence : ℚ
  strategy : String
  reasoning : String
deriving DecidableEq

/-- A single-quote character, built without an apostrophe literal. -/
def squote : String := String.singleton (Char.ofNat 39)

/-- `PatternLearner.explain_prediction(strategy, action, confidence)`
(the confidence argument is unused, as in the source). -/
def explain_prediction (strategy action : String) (_confidence : ℚ) : String :=
  if strategy == "sequence" then
    "Based on your typical workflow, you usually do " ++ squote ++ action ++ squote ++ " next."
  else if strategy == "context" then
    "In similar situations, you" ++ squote ++ "ve done " ++ squote ++ action ++ squote ++ " before."
  else
    "Not enough historical data for a confident prediction."

/-- Python `max(candidates, key=lambda x: x[2])`: first element with maximal
weight (later elements replace only on strictly greater weight). -/
def maxByWeight (l : List (String × String × ℚ)) : Option (String × String × ℚ) :=
  l.foldl
    (fun best p =>
      match best with
      | none => some p
      | some b => if p.2.2 > b.2.2 then some p else best)
    none

/-- `PatternLearner.predict_next_action(current_context, recent_actions)`.
The candidate guards `if seq_prediction:` and `if context_prediction:` are
Python truthiness tests, so an empty-string candidate is discarded exactly
like `None`. -/
def predict_next_action (s : LearnerState) (current_context : String)
    (recent_actions : List String) : Prediction :=
  let preds1 : List (String × String × ℚ) :=
    if recent_actions.isEmpty then []
    else
      match predict_from_sequences s recent_actions with
      | some p => if p == "" then [] else [("sequence", p, 7/10)]
      | none => []
  let preds2 : List (String × String × ℚ) :=
    match predict_from_context s current_context with
    | some p => if p == "" then [] else [("context", p, 6/10)]
    | none => []
  match maxByWeight (preds1 ++ preds2) with
  | some c =>
    { action := some c.2.1, confidence := c.2.2, strategy := c.1,
      reasoning := explain_prediction c.1 c.2.1 c.2.2 }
  | none =>
    { action := none, confidence := 0, strategy := "none",
      reasoning := "Not enough data to make a prediction" }

/-- `PatternLearner.get_success_rate(action)`: the `defaultdict` read
`self.action_success[action]` materialises a `(0, 0)` entry for a missing key,
so the function returns the rate together with the (possibly grown) state. -/
def get_success_rate (s : LearnerState) (action : String) : ℚ × LearnerState :=
  match alistLookup s.action_success action with
  | some stats =>
    let total := stats.1 + stats.2
    (if total = 0 then 1/2 else (stats.1 : ℚ) / (total : ℚ), s)
  | none =>
    (1/2, { s with action_success := s.action_success ++ [(action, 0, 0)] })

/-- The flat snapshot written by `PatternLearner.save` (the four dicts,
converted with `dict(...)`, i.e. exactly the materialised entries). -/
structure Snapshot where
  sequences : List (List String)
  action_contexts : List (String × List String)
  action_success : List (String × Nat × Nat)
  time_patterns : List (String × List Nat)
deriving DecidableEq

/-- `PatternLearner.save(filepath)`: the document it serialises. -/
def save (s : LearnerState) : Snapshot :=
  ⟨s.sequences, s.action_contexts, s.action_success, s.time_patterns⟩

/- ===== IntentPredictor (intent_predictor.py) ===== -/

/-- Shape of the regexes in `IntentPredictor.intent_patterns`: either a bare
case-insensitive alternation `(?i)(w1|w2|...)`, or two alternations separated
by `.{0,maxGap}`. -/
inductive RePat where
  | single (alts : List String)
  | gapped (alts1 : List String) (maxGap : Nat) (alts2 : List String)

/-- Whether `w` occurs in `s` starting at index `i`. -/
def subAt (w s : List Char) (i : Nat) : Bool :=
  (s.drop i).take w.length == w

/-- Python `w in s` substring containment. -/
def containsSub (s w : List Char) : Bool :=
  (List.range (s.length + 1)).any (fun i => subAt w s i)

/-- `re.search` existence semantics for a `RePat` (the `(?i)` flag is modelled
by lowercasing both sides; `.` does not match a newline). -/
def reMatches (p : RePat) (text : String) : Bool :=
  let s := lowerChars text
  match p with
  | .single alts => alts.any (fun w => containsSub s (lowerChars w))
  | .gapped alts1 maxGap alts2 =>
    (List.range (s.length + 1)).any (fun i =>
      alts1.any (fun w1 =>
        let cs1 := lowerChars w1
        subAt cs1 s i &&
        (List.range (maxGap + 1)).any (fun gap =>
          ((s.drop (i + cs1.length)).take gap).all (fun c => c != '\n') &&
          alts2.any (fun w2 => subAt (lowerChars w2) s (i + cs1.length + gap)))))

/-- `IntentPredictor.intent_patterns` in dict-literal (declaration) order. -/
def intent_patterns : List (RePat × String) :=
  [ (.gapped ["clean", "process", "transform", "parse"] 20 ["data", "csv", "json", "file"],
      "data_processing"),
    (.gapped ["load", "read", "import"] 20 ["data", "file", "csv", "json"], "data_loading"),
    (.single ["analyze", "visualize", "plot", "graph"], "data_analysis"),
    (.gapped ["call", "request", "fetch", "get"] 20 ["api", "endpoint", "url"], "api_request"),
    (.gapped ["post", "send", "submit"] 20 ["to", "data", "api"], "api_post"),
    (.gapped ["create", "write", "save"] 20 ["file", "document"], "file_creation"),
    (.gapped ["delete", "remove"] 20 ["file", "folder"], "file_deletion"),
    (.gapped ["move", "copy"] 20 ["file", "folder"], "file_manipulation"),
    (.gapped ["write", "create", "generate"] 20 ["function", "class", "code"],
      "code_generation"),
    (.gapped ["fix", "debug", "solve"] 20 ["bug", "error", "issue"], "debugging"),
    (.single ["refactor", "optimize", "improve"], "code_optimization"),
    (.single ["test", "unit test", "integration test"], "testing"),
    (.single ["validate", "verify", "check"], "validation"),
    (.single ["deploy", "release", "publish"], "deployment"),
    (.single ["build", "compile", "package"], "build"),
    (.single ["document", "explain", "comment"], "documentation"),
    (.single ["help", "guide", "tutorial"], "help_request") ]

/-- `IntentPredictor.match_patterns(text)`: first matching rule wins, base
confidence 0.6; no match yields `(None, 0.0)`. -/
def match_patterns (text : String) : Option String × ℚ :=
  match intent_patterns.find? (fun pr => reMatches pr.1 text) with
  | some pr => (some pr.2, 6/10)
  | none => (none, 0)

/-- `IntentPredictor.confidence_boosters`. -/
def confidence_boosters : List (String × List String) :=
  [ ("data_processing", ["pandas", "numpy", "clean", "transform"]),
    ("api_request", ["requests", "http", "fetch", "endpoint"]),
    ("code_generation", ["function", "class", "method", "implement"]),
    ("testing", ["pytest", "unittest", "test", "assert"]) ]

/-- `IntentPredictor.boost_confidence(intent, text, base_confidence, context)`.
The optional context dict is modelled as `Option (List String)`: `some ra` is a
truthy dict whose `recent_actions` entry is `ra`, `none` a falsy/absent one. -/
def boost_confidence (intent text : String) (base_confidence : ℚ)
    (context : Option (List String)) : ℚ :=
  let c1 :=
    match alistLookup confidence_boosters intent with
    | some keywords =>
      let text_lower := lowerChars text
      let hits := (keywords.filter (fun k => containsSub text_lower k.toList)).length
      base_confidence + min ((hits : ℚ) * (1/10)) (3/10)
    | none => base_confidence
  let c2 :=
    match context with
    | some recent_actions =>
      if recent_actions.contains intent then c1 + 1/10 else c1
    | none => c1
  min c2 1

/- ===== Prediction cache (adaptive_engine.py, AdaptiveEngine.predict_intent) ===== -/

/-- The cache key `f"{user_id}:{context[:50]}"`. -/
def cacheKey (userId context : String) : String :=
  userId ++ ":" ++ (context.take 50)

/-- `(later - earlier).seconds` for Python datetimes a whole number of seconds
apart with `later >= earlier`: the seconds-within-day component of the
timedelta, i.e. the elapsed seconds modulo 86400. -/
def tdSeconds (earlier later : Nat) : Nat := (later - earlier) % 86400

/-- The caching skeleton of `AdaptiveEngine.predict_intent`: the cache maps
keys to `(prediction, timestamp)`; `pipeline` stands for the recompute path
(`recall_memories` + `analyze_patterns` + `generate_prediction`, which depends
on the external memory service); returns the answer and the updated cache.
A cached entry is served iff its `tdSeconds` age is below `cache_ttl = 300`. -/
def predict_intent {α : Type} (pipeline : String → α)
    (cache : List (String × α × Nat)) (context userId : String) (now : Nat) :
    α × List (String × α × Nat) :=
  let key := cacheKey userId context
  match alistLookup cache key with
  | some c =>
    if tdSeconds c.2 now < 300 then (c.1, cache)
    else
      let fresh := pipeline context
      (fresh, alistSet cache key (fresh, now))
  | none =>
    let fresh := pipeline context
    (fresh, alistSet cache key (fresh, now))

/-- The success/failure counts recorded for an action: the stored entry, or
`(0, 0)` when the action was never observed. -/
def successCounts (s : LearnerState) (action : String) : Nat × Nat :=
  (alistLookup s.action_success action).getD (0, 0)

/- ===== Theorems ===== -/

/-- Helper: `List.find?` returns the first element past a prefix of
non-matching elements. -/
theorem find?_append_first {α : Type} (p : α → Bool) (x : α) :
    ∀ (l₁ l₂ : List α), (∀ y ∈ l₁, p y = false) → p x = true →
      (l₁ ++ x :: l₂).find? p = some x := by
  intro l₁
  induction l₁ with
  | nil =>
    intro l₂ _ hx
    rw [List.nil_append]
    exact List.find?_cons_of_pos l₂ hx
  | cons a t ih =>
    intro l₂ hprev hx
    have ha : p a = false := hprev a (by simp)
    rw [List.cons_append, List.find?_cons_of_neg _ (by simp [ha])]
    exact ih l₂ (fun y hy => hprev y (by simp [hy])) hx

/-- Helper: lowercasing fixes every `str.split()` whitespace character. -/
theorem pyIsSpace_toLower {c : Char} (h : pyIsSpace c = true) : c.toLower = c := by
  simp only [pyIsSpace, Bool.or_eq_true, beq_iff_eq] at h
  rcases h with ((((h | h) | h) | h) | h) | h <;> subst h <;> rfl

/-- Helper: splitting an all-whitespace character list yields no words. -/
theorem splitWordsAux_nil_of_space :
    ∀ (l : List Char), (∀ c ∈ l, pyIsSpace c = true) → splitWordsAux l [] = []
  | [], _ => rfl
  | c :: rest, h => by
    have hc : pyIsSpace c = true := h c (by simp)
    have hrest := splitWordsAux_nil_of_space rest (fun d hd => h d (by simp [hd]))
    simp [splitWordsAux, hc, hrest]

/-- Helper: a query whose word set is empty is similar to nothing. -/
theorem contexts_similar_empty_left (ctx1 ctx2 : List Char) (t : ℚ)
    (h : splitWords ctx1 = []) : contexts_similar ctx1 ctx2 t = false := by
  simp [contexts_similar, h, firstKeys]

/-- Helper: `boost_confidence` is the clamp of the base plus a keyword boost
in `[0, 3/10]` plus a context boost in `[0, 1/10]`. -/
theorem boost_confidence_cases (intent text : String) (base : ℚ)
    (context : Option (List String)) :
    ∃ kb cb : ℚ, 0 ≤ kb ∧ kb ≤ 3/10 ∧ 0 ≤ cb ∧ cb ≤ 1/10 ∧
      boost_confidence intent text base context = min (base + kb + cb) 1 := by
  unfold boost_confidence
  rcases h1 : alistLookup confidence_boosters intent with _ | keywords <;>
    rcases context with _ | ra
  · exact ⟨0, 0, le_refl 0, by norm_num, le_refl 0, by norm_num, by ring_nf⟩
  · by_cases hra : intent ∈ ra
    · exact ⟨0, 1/10, le_refl 0, by norm_num, by norm_num, le_refl _, by simp [hra]; try ring_nf⟩
    · exact ⟨0, 0, le_refl 0, by norm_num, le_refl 0, by norm_num, by simp [hra]; try ring_nf⟩
  · refine ⟨min (((keywords.filter
        (fun k => containsSub (lowerChars text) k.toList)).length : ℚ) * (1/10)) (3/10), 0,
      le_min (by positivity) (by norm_num), min_le_right _ _,
      le_refl 0, by norm_num, by ring_nf⟩
  · by_cases hra : intent ∈ ra
    · refine ⟨min (((keywords.filter
          (fun k => containsSub (lowerChars text) k.toList)).length : ℚ) * (1/10)) (3/10), 1/10,
        le_min (by positivity) (by norm_num), min_le_right _ _,
        by norm_num, le_refl _, by simp [hra]; try ring_nf⟩
    · refine ⟨min (((keywords.filter
          (fun k => containsSub (lowerChars text) k.toList)).length : ℚ) * (1/10)) (3/10), 0,
        le_min (by positivity) (by norm_num), min_le_right _ _,
        le_refl 0, by norm_num, by simp [hra]; try ring_nf⟩

/-- C1: observing `[data_loading, data_processing, data_analysis, reporting]`
twice and `[data_loading, data_processing, data_analysis, visualization]` once
on a fresh learner, `predict_next_action` with empty context and recent actions
`[data_loading, data_processing]` predicts action `data_analysis` via strategy
`sequence` with confidence 0.7. -/
theorem C1_end_to_end_sequence_prediction :
    (predict_next_action (observe_sequence (observe_sequence (observe_sequence emptyLearner
        ["data_loading", "data_processing", "data_analysis", "reporting"])
        ["data_loading", "data_processing", "data_analysis", "reporting"])
        ["data_loading", "data_processing", "data_analysis", "visualization"])
      "" ["data_loading", "data_processing"]).action = some "data_analysis" ∧
    (predict_next_action (observe_sequence (observe_sequence (observe_sequence emptyLearner
        ["data_loading", "data_processing", "data_analysis", "reporting"])
        ["data_loading", "data_processing", "data_analysis", "reporting"])
        ["data_loading", "data_processing", "data_analysis", "visualization"])
      "" ["data_loading", "data_processing"]).strategy = "sequence" ∧
    (predict_next_action (observe_sequence (observe_sequence (observe_sequence emptyLearner
        ["data_loading", "data_processing", "data_analysis", "reporting"])
        ["data_loading", "data_processing", "data_analysis", "reporting"])
        ["data_loading", "data_processing", "data_analysis", "visualization"])
      "" ["data_loading", "data_processing"]).confidence = 7/10 :=
  ⟨rfl, rfl, rfl⟩

/-- C2: the cache-freshness test compares only the seconds-within-day component
of the entry age (`timedelta.seconds`), so an entry inserted at t = 0 and read
at t = 86500 s (one day plus 100 s, far beyond the 300 s TTL) is still served
from the cache instead of re-running the pipeline: the code contradicts its own
`cache_ttl = 300  # 5 minutes` intent. -/
theorem C2_cache_hit_after_ttl_expiry :
    300 < 86500 ∧ tdSeconds 0 86500 = 100 ∧
    (predict_intent (fun _ => "recomputed")
        [(cacheKey "default" "hello", "stale", 0)] "hello" "default" 86500).1
      = "stale" :=
  ⟨by norm_num, rfl, rfl⟩

/-- C3 (counterexample): `boost_confidence` has no lower clamp, so a negative
base confidence yields a negative result, refuting "never below 0.0" as a claim
over every base confidence. -/
theorem C3_counterexample_negative_base :
    boost_confidence "testing" "" (-1) none < 0 := by
  have h : boost_confidence "testing" "" (-1) none = -1 := rfl
  rw [h]
  norm_num

/-- C3 (amended): for every intent label, input text, NONNEGATIVE base
confidence and optional context, `boost_confidence` adds at most +0.3 from
keyword hits plus at most +0.1 from the recent-actions context and clamps to at
most 1.0, so the result lies in [0, 1] (and never exceeds base + 0.4). -/
theorem C3_boost_confidence_bounds (intent text : String) (base : ℚ)
    (context : Option (List String)) (hbase : 0 ≤ base) :
    0 ≤ boost_confidence intent text base context ∧
    boost_confidence intent text base context ≤ 1 ∧
    boost_confidence intent text base context ≤ base + 3/10 + 1/10 := by
  obtain ⟨kb, cb, hkb0, hkb3, hcb0, hcb1, heq⟩ :=
    boost_confidence_cases intent text base context
  rw [heq]
  exact ⟨le_min (by linarith) (by norm_num), min_le_right _ _,
    (min_le_left _ _).trans (by linarith)⟩

/-- C3 witness: the bounds instantiated at a concrete boosted prediction. -/
theorem C3_boost_confidence_bounds_witness :
    0 ≤ boost_confidence "data_processing" "clean the data with pandas" (6/10)
        (some ["data_processing"]) ∧
    boost_confidence "data_processing" "clean the data with pandas" (6/10)
        (some ["data_processing"]) ≤ 1 ∧
    boost_confidence "data_processing" "clean the data with pandas" (6/10)
        (some ["data_processing"]) ≤ 6/10 + 3/10 + 1/10 :=
  C3_boost_confidence_bounds "data_processing" "clean the data with pandas"
    (6/10) (some ["data_processing"]) (by norm_num)

/-- C4 (counterexample): both strategies yield a NON-NULL action — the
sequence strategy produces the empty string, the context strategy produces
"a" — yet the program discards the falsy empty-string candidate
(`if seq_prediction:`) and returns the context candidate with weight 0.6, not
the sequence candidate with 0.7. -/
theorem C4_counterexample_falsy_sequence_candidate :
    predict_from_sequences ⟨[["x", ""]], [("a", ["hello"])], [], []⟩ ["x"]
        = some "" ∧
    predict_from_context ⟨[["x", ""]], [("a", ["hello"])], [], []⟩ "hello"
        = some "a" ∧
    (predict_next_action (⟨[["x", ""]], [("a", ["hello"])], [], []⟩ : LearnerState)
        "hello" ["x"]).strategy = "context" ∧
    (predict_next_action (⟨[["x", ""]], [("a", ["hello"])], [], []⟩ : LearnerState)
        "hello" ["x"]).action = some "a" ∧
    (predict_next_action (⟨[["x", ""]], [("a", ["hello"])], [], []⟩ : LearnerState)
        "hello" ["x"]).confidence = 6/10 :=
  ⟨rfl, rfl, rfl, rfl, rfl⟩

/-- C4 (amended): whenever both the sequence strategy and the context strategy
produce a TRUTHY (non-null, non-empty-string) candidate, `predict_next_action`
returns the sequence candidate with its static weight 0.7, for every learner
state and inputs. -/
theorem C4_sequence_strategy_beats_context (s : LearnerState) (ctx : String)
    (recent : List String) (a b : String)
    (h1 : predict_from_sequences s recent = some a) (ha : a ≠ "")
    (h2 : predict_from_context s ctx = some b) (hb : b ≠ "") :
    (predict_next_action s ctx recent).action = some a ∧
    (predict_next_action s ctx recent).strategy = "sequence" ∧
    (predict_next_action s ctx recent).confidence = 7/10 := by
  have hne : recent.isEmpty = false := by
    cases recent with
    | nil => simp [predict_from_sequences] at h1
    | cons x xs => rfl
  have ha' : (a == "") = false := beq_eq_false_iff_ne.mpr ha
  have hb' : (b == "") = false := beq_eq_false_iff_ne.mpr hb
  have hmax : maxByWeight [("sequence", a, 7/10), ("context", b, 6/10)]
      = some ("sequence", a, 7/10) := by
    simp only [maxByWeight, List.foldl]
    norm_num
  simp [predict_next_action, hne, h1, h2, ha', hb', hmax]

/-- C4 witness: a state where both strategies produce a candidate. -/
theorem C4_sequence_strategy_beats_context_witness :
    (predict_next_action ⟨[["a", "b"]], [("reporting", ["load the data file"])], [], []⟩
      "load the data file" ["a"]).action = some "b" ∧
    (predict_next_action ⟨[["a", "b"]], [("reporting", ["load the data file"])], [], []⟩
      "load the data file" ["a"]).strategy = "sequence" ∧
    (predict_next_action ⟨[["a", "b"]], [("reporting", ["load the data file"])], [], []⟩
      "load the data file" ["a"]).confidence = 7/10 :=
  C4_sequence_strategy_beats_context
    ⟨[["a", "b"]], [("reporting", ["load the data file"])], [], []⟩
    "load the data file" ["a"] "b" "reporting" rfl (by decide) rfl (by decide)

/-- C5: `observe_sequence` is a silent no-op on inputs shorter than 2 and
otherwise appends exactly the given list to the sequence log, leaving every
other component of the learner state unchanged. -/
theorem C5_observe_sequence_frame (s : LearnerState) (actions : List String) :
    (actions.length < 2 → observe_sequence s actions = s) ∧
    (2 ≤ actions.length →
      observe_sequence s actions = { s with sequences := s.sequences ++ [actions] }) := by
  constructor
  · intro h
    unfold observe_sequence
    rw [if_neg (by omega)]
  · intro h
    unfold observe_sequence
    rw [if_pos h]

/-- C5 witness: the frame conditions at a length-1 and a length-2 input. -/
theorem C5_observe_sequence_frame_witness :
    observe_sequence emptyLearner ["a"] = emptyLearner ∧
    observe_sequence emptyLearner ["a", "b"] =
      { emptyLearner with sequences := [["a", "b"]] } :=
  ⟨(C5_observe_sequence_frame emptyLearner ["a"]).1 (by norm_num),
   (C5_observe_sequence_frame emptyLearner ["a", "b"]).2 (by norm_num)⟩

/-- C6: `match_patterns` scans the rules in declaration order and the first
rule whose pattern matches wins with base confidence exactly 0.6; in
particular "I need to clean this CSV file with messy data" yields
`data_processing` at 0.6. -/
theorem C6_first_match_wins :
    (∀ (text : String) (pre post : List (RePat × String)) (pat : RePat)
        (intent : String),
        intent_patterns = pre ++ (pat, intent) :: post →
        (∀ q ∈ pre, reMatches q.1 text = false) →
        reMatches pat text = true →
        match_patterns text = (some intent, 6/10)) ∧
    match_patterns "I need to clean this CSV file with messy data"
      = (some "data_processing", 6/10) := by
  constructor
  · intro text pre post pat intent hdecomp hpre hp
    unfold match_patterns
    rw [hdecomp, find?_append_first (fun pr => reMatches pr.1 text) (pat, intent)
      pre post hpre hp]
  · rfl

/-- C6 witness: the general first-match rule applied at the concrete text and
the head rule of the table. -/
theorem C6_first_match_wins_witness :
    match_patterns "I need to clean this CSV file with messy data"
      = (some "data_processing", 6/10) :=
  C6_first_match_wins.1 "I need to clean this CSV file with messy data"
    [] (intent_patterns.drop 1)
    (.gapped ["clean", "process", "transform", "parse"] 20 ["data", "csv", "json", "file"])
    "data_processing" rfl (fun q hq => absurd hq (by simp)) rfl

/-- C7: `get_success_rate` returns successes over total observations for the
action, and exactly 1/2 when no successes or failures were recorded. -/
theorem C7_success_rate_value (s : LearnerState) (a : String) :
    (successCounts s a = (0, 0) → (get_success_rate s a).1 = 1/2) ∧
    (∀ sc fc : Nat, successCounts s a = (sc, fc) → 0 < sc + fc →
      (get_success_rate s a).1 = (sc : ℚ) / ((sc : ℚ) + (fc : ℚ))) := by
  unfold successCounts get_success_rate
  cases h : alistLookup s.action_success a with
  | none =>
    refine ⟨fun _ => rfl, fun sc fc hsc hpos => ?_⟩
    simp only [Option.getD] at hsc
    rw [Prod.mk.injEq] at hsc
    omega
  | some stats =>
    obtain ⟨s1, s2⟩ := stats
    constructor
    · intro hz
      simp only [Option.getD, Prod.mk.injEq] at hz
      obtain ⟨rfl, rfl⟩ := hz
      rfl
    · intro sc fc hsc hpos
      simp only [Option.getD, Prod.mk.injEq] at hsc
      obtain ⟨rfl, rfl⟩ := hsc
      simp only []
      rw [if_neg (by omega)]
      push_cast
      ring

/-- C7 witness: the default at a never-observed action and the ratio at an
action with 2 successes and 1 failure. -/
theorem C7_success_rate_value_witness :
    (get_success_rate emptyLearner "x").1 = 1/2 ∧
    (get_success_rate (⟨[], [], [("y", 2, 1)], []⟩ : LearnerState) "y").1
      = ((2 : Nat) : ℚ) / (((2 : Nat) : ℚ) + ((1 : Nat) : ℚ)) :=
  ⟨(C7_success_rate_value emptyLearner "x").1 rfl,
   (C7_success_rate_value (⟨[], [], [("y", 2, 1)], []⟩ : LearnerState) "y").2
     2 1 rfl (by norm_num)⟩

/-- C8: when neither strategy yields a candidate — each prediction is either
null or the falsy empty string that the `if seq_prediction:` /
`if context_prediction:` truthiness guards discard — `predict_next_action`
returns the `none` strategy with action null, confidence 0 and the fixed
explanation, as a value (the embedded query path is total, it cannot throw). -/
theorem C8_none_strategy_on_no_data (s : LearnerState) (ctx : String)
    (recent : List String)
    (h1 : predict_from_sequences s recent = none ∨
          predict_from_sequences s recent = some "")
    (h2 : predict_from_context s ctx = none ∨
          predict_from_context s ctx = some "") :
    predict_next_action s ctx recent =
      { action := none, confidence := 0, strategy := "none",
        reasoning := "Not enough data to make a prediction" } := by
  cases hr : recent.isEmpty <;> rcases h1 with h1 | h1 <;> rcases h2 with h2 | h2 <;>
    simp [predict_next_action, hr, h1, h2, maxByWeight]

/-- C8 witness: the empty query (no recent actions, empty context) on a fresh
learner, and a state whose only context candidate is the falsy empty-string
action, which is discarded. -/
theorem C8_none_strategy_on_no_data_witness :
    (predict_next_action emptyLearner "" [] =
      { action := none, confidence := 0, strategy := "none",
        reasoning := "Not enough data to make a prediction" }) ∧
    (predict_next_action (⟨[], [("", ["hello"])], [], []⟩ : LearnerState) "hello" [] =
      { action := none, confidence := 0, strategy := "none",
        reasoning := "Not enough data to make a prediction" }) :=
  ⟨C8_none_strategy_on_no_data emptyLearner "" [] (Or.inl rfl) (Or.inl rfl),
   C8_none_strategy_on_no_data (⟨[], [("", ["hello"])], [], []⟩ : LearnerState)
     "hello" [] (Or.inl rfl) (Or.inr rfl)⟩

/-- C9: reading the success rate of a never-observed action is not a pure
read: it returns 1/2 AND materialises a `(0, 0)` entry for the action in the
success map (a `defaultdict` lookup), which a subsequent `save` persists;
every other component of the state is unchanged. -/
theorem C9_success_rate_materialises_entry (s : LearnerState) (a : String)
    (h : alistLookup s.action_success a = none) :
    (get_success_rate s a).1 = 1/2 ∧
    (get_success_rate s a).2 =
      { s with action_success := s.action_success ++ [(a, 0, 0)] } ∧
    (a, 0, 0) ∈ (save (get_success_rate s a).2).action_success := by
  unfold get_success_rate
  rw [h]
  exact ⟨rfl, rfl, by simp [save]⟩

/-- C9 witness: the materialised entry on a fresh learner. -/
theorem C9_success_rate_materialises_entry_witness :
    (get_success_rate emptyLearner "deploy").1 = 1/2 ∧
    (get_success_rate emptyLearner "deploy").2 =
      { emptyLearner with action_success := [("deploy", 0, 0)] } ∧
    ("deploy", 0, 0) ∈ (save (get_success_rate emptyLearner "deploy").2).action_success :=
  C9_success_rate_materialises_entry emptyLearner "deploy" rfl

/-- C10: `predict_from_context` on an empty or whitespace-only query returns
null for every learner state — similarity with an empty query word set is
defined as false, so even an identical stored sample never votes. -/
theorem C10_blank_context_returns_none (s : LearnerState) (context : String)
    (h : ∀ c ∈ context.toList, pyIsSpace c = true) :
    predict_from_context s context = none := by
  have hl : splitWords (lowerChars context) = [] := by
    apply splitWordsAux_nil_of_space
    intro c hc
    simp only [lowerChars, List.mem_map] at hc
    obtain ⟨d, hd, rfl⟩ := hc
    have hds := h d hd
    rw [pyIsSpace_toLower hds]
    exact hds
  have hflat : ∀ (lps : List (String × List String)),
      (lps.map (fun p =>
        (p.2.filter (fun ctx =>
          contexts_similar (lowerChars context) (lowerChars ctx) (3/10))).map
            (fun _ => p.1))).flatten = [] := by
    intro lps
    induction lps with
    | nil => rfl
    | cons p rest ih =>
      have hfil : p.2.filter (fun ctx =>
          contexts_similar (lowerChars context) (lowerChars ctx) (3/10)) = [] := by
        apply List.filter_eq_nil_iff.mpr
        intro ctx _
        simp [contexts_similar_empty_left _ _ _ hl]
      rw [List.map_cons, List.flatten_cons, hfil, List.map_nil, List.nil_append, ih]
  simp only [predict_from_context, hflat s.action_contexts]
  rfl

/-- C10 witness: a whitespace-only query against a state storing the identical
whitespace-only sample. -/
theorem C10_blank_context_returns_none_witness :
    predict_from_context (⟨[], [("a", ["   "])], [], []⟩ : LearnerState) "   " = none :=
  C10_blank_context_returns_none (⟨[], [("a", ["   "])], [], []⟩ : LearnerState)
    "   " (by decide)

end AdaptiveAI
